import Mathlib

/-
Verification of the breakout-style game simulation core (src/main.rs).

Positions, sizes and velocities are f32 in the source; they are embedded
as rationals, so every arithmetic operation of the core (addition,
multiplication by the fixed timestep, division by constants, clamping,
comparisons) is exact.  The `usize` counters `score` and `lives` are
embedded as naturals; Rust's `lives -= 1` is embedded as truncated
subtraction, and the development proves separately that the decrement is
never executed at `lives = 0` from any reachable state.

Bevy schedules all simulation systems with `.before(check_for_collisions)`
and otherwise leaves their relative order to the executor; the embedding
fixes the one order the specification's step contract and the source's
registration order exhibit: keyboard paddle movement, mouse paddle
movement, ball sticking, launch handling, velocity integration, and
finally the collision pass.
-/

namespace Breakout

/-- `TIME_STEP` from src/main.rs. -/
def TIME_STEP : ℚ := 1 / 60

/-- `CANVAS_WIDTH` from src/main.rs. -/
def CANVAS_WIDTH : ℚ := 1000

/-- `CANVAS_HEIGHT` from src/main.rs. -/
def CANVAS_HEIGHT : ℚ := 800

/-- `PADDLE_SPEED` from src/main.rs. -/
def PADDLE_SPEED : ℚ := 800

/-- `PADDLE_PADDING` from src/main.rs. -/
def PADDLE_PADDING : ℚ := 20

/-- `BALL_SPEED` from src/main.rs. -/
def BALL_SPEED : ℚ := 500

/-- `CALL_COLLISION_SPEED_INCREASE` from src/main.rs. -/
def CALL_COLLISION_SPEED_INCREASE : ℚ := 10

/-- `WALL_THICKNESS` from src/main.rs. -/
def WALL_THICKNESS : ℚ := 20

/-- `LEFT_WALL` from src/main.rs. -/
def LEFT_WALL : ℚ := -(CANVAS_WIDTH / 2)

/-- `RIGHT_WALL` from src/main.rs. -/
def RIGHT_WALL : ℚ := CANVAS_WIDTH / 2

/-- `BOTTOM_WALL` from src/main.rs. -/
def BOTTOM_WALL : ℚ := -(CANVAS_HEIGHT / 2)

/-- `TOP_WALL` from src/main.rs. -/
def TOP_WALL : ℚ := CANVAS_HEIGHT / 2

/-- A two-dimensional vector (`Vec2` of the engine, exact coordinates). -/
structure Vec2 where
  x : ℚ
  y : ℚ
deriving DecidableEq, Repr

/-- `PADDLE_SIZE` truncated to two dimensions. -/
def PADDLE_SIZE : Vec2 := ⟨120, 20⟩

/-- `BALL_SIZE` truncated to two dimensions. -/
def BALL_SIZE : Vec2 := ⟨30, 30⟩

/-- `BRICK_SIZE` from src/main.rs. -/
def BRICK_SIZE : Vec2 := ⟨70, 25⟩

/-- The paddle's fixed y coordinate: `BOTTOM_WALL + 30.` from `setup`. -/
def PADDLE_Y : ℚ := BOTTOM_WALL + 30

/-- Left clamping bound for the paddle x position, from `move_paddle`. -/
def paddleLeftBound : ℚ := LEFT_WALL + WALL_THICKNESS / 2 + PADDLE_SIZE.x / 2 + PADDLE_PADDING

/-- Right clamping bound for the paddle x position, from `move_paddle`. -/
def paddleRightBound : ℚ := RIGHT_WALL - WALL_THICKNESS / 2 - PADDLE_SIZE.x / 2 - PADDLE_PADDING

/-- Rust's `f32::clamp`: values below `lo` go to `lo`, above `hi` to `hi`. -/
def rclamp (v lo hi : ℚ) : ℚ :=
  if v < lo then lo else if v > hi then hi else v

/-- The collision side classification of the engine's AABB test
(`bevy::sprite::collide_aabb::Collision`). -/
inductive Collision where
  | Left
  | Right
  | Top
  | Bottom
  | Inside
deriving DecidableEq, Repr

/-- The strict two-axis overlap test of the AABB collision routine:
each box is given by center and full size. -/
def aabbOverlap (aPos aSize bPos bSize : Vec2) : Prop :=
  aPos.x - aSize.x / 2 < bPos.x + bSize.x / 2 ∧
  aPos.x + aSize.x / 2 > bPos.x - bSize.x / 2 ∧
  aPos.y - aSize.y / 2 < bPos.y + bSize.y / 2 ∧
  aPos.y + aSize.y / 2 > bPos.y - bSize.y / 2

instance (aPos aSize bPos bSize : Vec2) : Decidable (aabbOverlap aPos aSize bPos bSize) := by
  unfold aabbOverlap
  infer_instance

/-- Side classification of an established AABB overlap: per axis the side
candidate and its penetration depth from the edge positions, then the axis
of smaller penetration depth wins; containment and ambiguous cases yield
`Inside`. -/
def collideSide (aPos aSize bPos bSize : Vec2) : Collision :=
  let aMinX := aPos.x - aSize.x / 2
  let aMaxX := aPos.x + aSize.x / 2
  let aMinY := aPos.y - aSize.y / 2
  let aMaxY := aPos.y + aSize.y / 2
  let bMinX := bPos.x - bSize.x / 2
  let bMaxX := bPos.x + bSize.x / 2
  let bMinY := bPos.y - bSize.y / 2
  let bMaxY := bPos.y + bSize.y / 2
  let xColl : Option (Collision × ℚ) :=
    if aMinX < bMinX ∧ aMaxX > bMinX ∧ aMaxX < bMaxX then
      some (Collision.Left, bMinX - aMaxX)
    else if aMinX > bMinX ∧ aMinX < bMaxX ∧ aMaxX > bMaxX then
      some (Collision.Right, aMinX - bMaxX)
    else
      none
  let yColl : Option (Collision × ℚ) :=
    if aMinY < bMinY ∧ aMaxY > bMinY ∧ aMaxY < bMaxY then
      some (Collision.Bottom, bMinY - aMaxY)
    else if aMinY > bMinY ∧ aMinY < bMaxY ∧ aMaxY > bMaxY then
      some (Collision.Top, aMinY - bMaxY)
    else
      none
  match xColl, yColl with
  | some (xc, xd), some (yc, yd) => if |yd| < |xd| then yc else xc
  | some (xc, _), none => xc
  | none, some (yc, _) => yc
  | none, none => Collision.Inside

/-- Modelled from the spec: the overlap-and-side-classification contract of
the geometry collaborator (spec section 4.1), Bevy's
`sprite::collide_aabb::collide`, which is an external dependency and not
part of src/.  Boxes are given by center and full size; `none` when the
boxes do not strictly overlap on both axes; on overlap, the side of `b`
that `a` struck. -/
def collide (aPos aSize bPos bSize : Vec2) : Option Collision :=
  if aabbOverlap aPos aSize bPos bSize then
    some (collideSide aPos aSize bPos bSize)
  else
    none

/-- The entity kinds that carry a `Collider` component in `setup`:
the paddle, the three plain walls, the bottom wall, and the bricks. -/
inductive ColliderKind where
  | paddle
  | wall
  | bottomWall
  | brick
deriving DecidableEq, Repr

/-- A collider as seen by `check_for_collisions`: its marker components,
its translation and its scale. -/
structure Collider where
  kind : ColliderKind
  pos : Vec2
  size : Vec2
deriving DecidableEq, Repr

/-- The `GameState` resource from src/main.rs. -/
structure GameState where
  score : ℕ
  ball_waiting : Bool
  lives : ℕ
deriving DecidableEq, Repr

/-- The mutable simulation state: game state, ball transform and velocity,
paddle x position, and the surviving brick centers. -/
structure World where
  gs : GameState
  ballPos : Vec2
  ballVel : Vec2
  paddleX : ℚ
  bricks : List Vec2
deriving DecidableEq, Repr

/-- The per-tick raw input observed by the systems: pressed state of the
left/right/space keys, whether the left mouse button was just pressed, and
the cursor x position in window coordinates when one is available. -/
structure Input where
  keyLeft : Bool
  keyRight : Bool
  keySpace : Bool
  mouseJustPressed : Bool
  cursor : Option ℚ
deriving DecidableEq, Repr

/-- The left wall collider from `setup`/`wall_sprite_bundle`. -/
def leftWallC : Collider :=
  ⟨ColliderKind.wall, ⟨LEFT_WALL, 0⟩, ⟨WALL_THICKNESS, CANVAS_HEIGHT + WALL_THICKNESS⟩⟩

/-- The right wall collider from `setup`/`wall_sprite_bundle`. -/
def rightWallC : Collider :=
  ⟨ColliderKind.wall, ⟨RIGHT_WALL, 0⟩, ⟨WALL_THICKNESS, CANVAS_HEIGHT + WALL_THICKNESS⟩⟩

/-- The bottom wall collider from `setup`/`wall_sprite_bundle`; it is the
one wall additionally tagged `BottomWall`. -/
def bottomWallC : Collider :=
  ⟨ColliderKind.bottomWall, ⟨0, BOTTOM_WALL⟩, ⟨CANVAS_WIDTH + WALL_THICKNESS, WALL_THICKNESS⟩⟩

/-- The top wall collider from `setup`/`wall_sprite_bundle`. -/
def topWallC : Collider :=
  ⟨ColliderKind.wall, ⟨0, TOP_WALL⟩, ⟨CANVAS_WIDTH + WALL_THICKNESS, WALL_THICKNESS⟩⟩

/-- The paddle collider at its current x position. -/
def paddleC (px : ℚ) : Collider :=
  ⟨ColliderKind.paddle, ⟨px, PADDLE_Y⟩, PADDLE_SIZE⟩

/-- A brick collider at a given center. -/
def brickC (b : Vec2) : Collider :=
  ⟨ColliderKind.brick, b, BRICK_SIZE⟩

/-- The collider query of `check_for_collisions`: every surviving entity
with a `Collider` component, in spawn order. -/
def colliders (w : World) : List Collider :=
  paddleC w.paddleX :: leftWallC :: rightWallC :: bottomWallC :: topWallC ::
    w.bricks.map brickC

/-- The brick branch of `check_for_collisions` on the ball velocity:
a strictly upward-moving ball speeds up by the fixed increment, any other
ball speeds up downward. -/
def brickBounce (v : Vec2) : Vec2 :=
  if v.y > 0 then ⟨v.x, v.y + CALL_COLLISION_SPEED_INCREASE⟩
  else ⟨v.x, v.y - CALL_COLLISION_SPEED_INCREASE⟩

/-- The `reflect_x` flag of `check_for_collisions`, computed from the
collision side and the current velocity. -/
def reflectXFlag (col : Collision) (v : Vec2) : Bool :=
  match col with
  | Collision.Left => decide (v.x > 0)
  | Collision.Right => decide (v.x < 0)
  | _ => false

/-- The `reflect_y` flag of `check_for_collisions`, computed from the
collision side and the current velocity. -/
def reflectYFlag (col : Collision) (v : Vec2) : Bool :=
  match col with
  | Collision.Top => decide (v.y < 0)
  | Collision.Bottom => decide (v.y > 0)
  | _ => false

/-- The plain axis-reflection branch of `check_for_collisions`: invert
each velocity component whose reflect flag is set. -/
def reflectVel (col : Collision) (v : Vec2) : Vec2 :=
  ⟨if reflectXFlag col v then -v.x else v.x,
   if reflectYFlag col v then -v.y else v.y⟩

/-- The paddle branch of `check_for_collisions`: always invert the y
velocity, and recompute the x velocity from the contact offset, clamped. -/
def paddleBounce (ballX paddleX : ℚ) (v : Vec2) : Vec2 :=
  ⟨rclamp ((ballX - paddleX) / 70) (-(4 / 5)) (4 / 5) * BALL_SPEED, -v.y⟩

/-- Result of processing one collider in `check_for_collisions`: the new
ball velocity, the new game state, and whether the collider was despawned. -/
structure Response where
  vel : Vec2
  gs : GameState
  despawned : Bool
deriving DecidableEq, Repr

/-- The body of the collider loop of `check_for_collisions` for a single
collider: the brick branch (despawn, score, speed-up), the bottom wall
branch (zero velocity, set waiting, decrement lives), then the reflection
policy computed from the current velocity, with the paddle override. -/
def respondCollider (ballPos : Vec2) (c : Collider) (v : Vec2) (gs : GameState) : Response :=
  match collide ballPos BALL_SIZE c.pos c.size with
  | none => ⟨v, gs, false⟩
  | some col =>
    match c.kind with
    | ColliderKind.brick =>
      ⟨reflectVel col (brickBounce v),
       { gs with score := gs.score + 1 }, true⟩
    | ColliderKind.bottomWall =>
      ⟨reflectVel col ⟨0, 0⟩,
       { gs with ball_waiting := true, lives := gs.lives - 1 }, false⟩
    | ColliderKind.paddle =>
      if reflectYFlag col v || reflectXFlag col v then
        ⟨paddleBounce ballPos.x c.pos.x v, gs, false⟩
      else
        ⟨reflectVel col v, gs, false⟩
    | ColliderKind.wall => ⟨reflectVel col v, gs, false⟩

/-- One step of the collider loop, threading velocity and game state. -/
def passStep (ballPos : Vec2) (acc : Vec2 × GameState) (c : Collider) : Vec2 × GameState :=
  let r := respondCollider ballPos c acc.1 acc.2
  (r.vel, r.gs)

/-- `check_for_collisions`: fold the collider loop over the collider query
snapshot, then apply the deferred brick despawns. -/
def check_for_collisions (w : World) : World :=
  let res := (colliders w).foldl (passStep w.ballPos) (w.ballVel, w.gs)
  { w with ballVel := res.1, gs := res.2,
           bricks := w.bricks.filter
             (fun b => (collide w.ballPos BALL_SIZE b BRICK_SIZE).isNone) }

/-- `move_paddle`: keyboard direction, applied with `PADDLE_SPEED` over the
fixed timestep and clamped to the arena bounds. -/
def move_paddle (i : Input) (x : ℚ) : ℚ :=
  let direction : ℚ := (if i.keyLeft then -1 else 0) + (if i.keyRight then 1 else 0)
  rclamp (x + direction * PADDLE_SPEED * TIME_STEP) paddleLeftBound paddleRightBound

/-- `move_paddle_by_mouse`: when a cursor position exists, overwrite the
paddle x with the cursor x recentred to arena coordinates, clamped. -/
def move_paddle_by_mouse (i : Input) (x : ℚ) : ℚ :=
  match i.cursor with
  | none => x
  | some cx => rclamp (cx - CANVAS_WIDTH / 2) paddleLeftBound paddleRightBound

/-- The paddle-control phase of a tick: the keyboard system followed by the
mouse system (the spec's step order; the source registers both before the
collision pass, listing the keyboard system first). -/
def paddlePhase (i : Input) (x : ℚ) : ℚ :=
  move_paddle_by_mouse i (move_paddle i x)

/-- `stick_ball_to_paddle`: while the ball is waiting, its transform is
snapped to the paddle's x and 25 units above the paddle. -/
def stick_ball_to_paddle (w : World) : World :=
  if w.gs.ball_waiting then
    { w with ballPos := ⟨w.paddleX, PADDLE_Y + 25⟩ }
  else w

/-- The launch velocity set by `handle_waiting_click`: the x component is
negative when the left arrow key is held simultaneously. -/
def launchVel (i : Input) : Vec2 :=
  if i.keyLeft then ⟨-(1 / 2) * BALL_SPEED, 1 / 2 * BALL_SPEED⟩
  else ⟨1 / 2 * BALL_SPEED, 1 / 2 * BALL_SPEED⟩

/-- `handle_waiting_click`: with lives remaining, a waiting ball and a
launch input (space held or left mouse button just pressed), clear the
waiting flag and set the launch velocity, aiming left when the left arrow
key is held. -/
def handle_waiting_click (i : Input) (w : World) : World :=
  if 0 < w.gs.lives ∧ w.gs.ball_waiting = true ∧ (i.keySpace || i.mouseJustPressed) = true then
    { w with gs := { w.gs with ball_waiting := false }, ballVel := launchVel i }
  else w

/-- `apply_velocity`: integrate the ball position by one fixed timestep
(the ball is the only velocity-bearing entity). -/
def apply_velocity (w : World) : World :=
  { w with ballPos := ⟨w.ballPos.x + w.ballVel.x * TIME_STEP,
                       w.ballPos.y + w.ballVel.y * TIME_STEP⟩ }

/-- Everything of a tick that runs before the collision pass, in the step
order of the specification: paddle control, ball sticking, launch
handling, integration. -/
def preTick (w : World) (i : Input) : World :=
  apply_velocity (handle_waiting_click i (stick_ball_to_paddle
    { w with paddleX := paddlePhase i w.paddleX }))

/-- One fixed simulation tick. -/
def tick (w : World) (i : Input) : World :=
  check_for_collisions (preTick w i)

/-- The column indices `0..12` of the brick grid, as exact coordinates. -/
def brickCols : List ℚ := [0, 1, 2, 3, 4, 5, 6, 7, 8, 9, 10, 11]

/-- The row indices `0..6` of the brick grid, as exact coordinates. -/
def brickRows : List ℚ := [0, 1, 2, 3, 4, 5]

/-- The brick grid spawned by `setup`: 12 columns by 6 rows. -/
def initBricks : List Vec2 :=
  brickCols.flatMap (fun rx =>
    brickRows.map (fun ry =>
      ⟨LEFT_WALL + (80 + rx * 75), TOP_WALL - (80 + ry * 30)⟩))

/-- The initial world: the `GameState` resource inserted in `main` and the
entities spawned by `setup`. -/
def init : World :=
  { gs := { score := 0, ball_waiting := true, lives := 3 },
    ballPos := ⟨0, -50⟩,
    ballVel := ⟨0, 0⟩,
    paddleX := 0,
    bricks := initBricks }

/-- The states reachable from the initial world by any sequence of ticks
under arbitrary inputs. -/
inductive Reachable : World → Prop where
  | init : Reachable init
  | step (w : World) (i : Input) : Reachable w → Reachable (tick w i)

/-- The inductive invariant of the simulation: a waiting ball has zero
velocity, a state with no lives left is waiting (so no further launch is
accepted), and every surviving brick lies in the upper brick-grid band. -/
def Inv (w : World) : Prop :=
  (w.gs.ball_waiting = true → w.ballVel = ⟨0, 0⟩) ∧
  (w.gs.lives = 0 → w.gs.ball_waiting = true) ∧
  (∀ b ∈ w.bricks, (170 : ℚ) ≤ b.y)

instance (w : World) : Decidable (Inv w) := by
  unfold Inv
  infer_instance

/-- An input with nothing pressed and no cursor available. -/
def noInput : Input := ⟨false, false, false, false, none⟩

/-- An input that only holds the launch key (space). -/
def launchInput : Input := ⟨false, false, true, false, none⟩

/-- An input holding both direction keys while a cursor position exists. -/
def bothInput : Input := ⟨true, true, false, false, some 100⟩

/-- A mid-flight state: the ball just above the bottom wall, falling. -/
def fallWorld : World :=
  { gs := { score := 0, ball_waiting := false, lives := 3 },
    ballPos := ⟨0, -377⟩, ballVel := ⟨0, -200⟩, paddleX := 0, bricks := initBricks }

/-- A game-over state: no lives left, ball waiting on the paddle. -/
def deadWorld : World :=
  { gs := { score := 5, ball_waiting := true, lives := 0 },
    ballPos := ⟨0, -345⟩, ballVel := ⟨0, 0⟩, paddleX := 0, bricks := initBricks }

/-- A state with the ball about to strike the left side of a brick. -/
def brickWorld : World :=
  { gs := { score := 7, ball_waiting := false, lives := 2 },
    ballPos := ⟨-45, 320⟩, ballVel := ⟨200, 0⟩, paddleX := 0, bricks := [⟨0, 320⟩] }

theorem collide_eq_none (aPos aSize bPos bSize : Vec2)
    (h : ¬ aabbOverlap aPos aSize bPos bSize) :
    collide aPos aSize bPos bSize = none := by
  unfold collide
  rw [if_neg h]

theorem overlap_of_collide_eq_some (aPos aSize bPos bSize : Vec2) (col : Collision)
    (h : collide aPos aSize bPos bSize = some col) :
    aabbOverlap aPos aSize bPos bSize := by
  by_contra hc
  rw [collide_eq_none _ _ _ _ hc] at h
  exact Option.noConfusion h

theorem respond_none (p : Vec2) (c : Collider) (v : Vec2) (gs : GameState)
    (h : collide p BALL_SIZE c.pos c.size = none) :
    respondCollider p c v gs = ⟨v, gs, false⟩ := by
  unfold respondCollider
  rw [h]

theorem respond_brick (p : Vec2) (c : Collider) (v : Vec2) (gs : GameState) (col : Collision)
    (hcol : collide p BALL_SIZE c.pos c.size = some col)
    (hk : c.kind = ColliderKind.brick) :
    respondCollider p c v gs =
      ⟨reflectVel col (brickBounce v), { gs with score := gs.score + 1 }, true⟩ := by
  unfold respondCollider
  rw [hcol, hk]

theorem respond_bottom (p : Vec2) (c : Collider) (v : Vec2) (gs : GameState) (col : Collision)
    (hcol : collide p BALL_SIZE c.pos c.size = some col)
    (hk : c.kind = ColliderKind.bottomWall) :
    respondCollider p c v gs =
      ⟨reflectVel col ⟨0, 0⟩,
       { gs with ball_waiting := true, lives := gs.lives - 1 }, false⟩ := by
  unfold respondCollider
  rw [hcol, hk]

theorem respond_paddle (p : Vec2) (c : Collider) (v : Vec2) (gs : GameState) (col : Collision)
    (hcol : collide p BALL_SIZE c.pos c.size = some col)
    (hk : c.kind = ColliderKind.paddle) :
    respondCollider p c v gs =
      if reflectYFlag col v || reflectXFlag col v then
        ⟨paddleBounce p.x c.pos.x v, gs, false⟩
      else
        ⟨reflectVel col v, gs, false⟩ := by
  unfold respondCollider
  rw [hcol, hk]

theorem respond_wall (p : Vec2) (c : Collider) (v : Vec2) (gs : GameState) (col : Collision)
    (hcol : collide p BALL_SIZE c.pos c.size = some col)
    (hk : c.kind = ColliderKind.wall) :
    respondCollider p c v gs = ⟨reflectVel col v, gs, false⟩ := by
  unfold respondCollider
  rw [hcol, hk]

theorem reflectXFlag_zero (col : Collision) : reflectXFlag col ⟨0, 0⟩ = false := by
  cases col <;> with_unfolding_all rfl

theorem reflectYFlag_zero (col : Collision) : reflectYFlag col ⟨0, 0⟩ = false := by
  cases col <;> with_unfolding_all rfl

theorem reflectVel_zero (col : Collision) : reflectVel col ⟨0, 0⟩ = ⟨0, 0⟩ := by
  unfold reflectVel
  rw [reflectXFlag_zero, reflectYFlag_zero]
  rfl

theorem respond_gs_nonspecial (p : Vec2) (c : Collider) (v : Vec2) (gs : GameState)
    (hk : c.kind = ColliderKind.paddle ∨ c.kind = ColliderKind.wall) :
    (respondCollider p c v gs).gs = gs := by
  cases hcol : collide p BALL_SIZE c.pos c.size with
  | none => rw [respond_none _ _ _ _ hcol]
  | some col =>
    rcases hk with hk | hk
    · rw [respond_paddle _ _ _ _ _ hcol hk]
      split <;> rfl
    · rw [respond_wall _ _ _ _ _ hcol hk]

theorem respond_waiting (p : Vec2) (c : Collider) (v : Vec2) (gs : GameState)
    (h : gs.ball_waiting = true) :
    (respondCollider p c v gs).gs.ball_waiting = true := by
  cases hcol : collide p BALL_SIZE c.pos c.size with
  | none => rw [respond_none _ _ _ _ hcol]; exact h
  | some col =>
    cases hk : c.kind with
    | paddle => rw [respond_paddle _ _ _ _ _ hcol hk]; split <;> exact h
    | wall => rw [respond_wall _ _ _ _ _ hcol hk]; exact h
    | bottomWall => rw [respond_bottom _ _ _ _ _ hcol hk]
    | brick => rw [respond_brick _ _ _ _ _ hcol hk]; exact h

theorem respond_lives_le (p : Vec2) (c : Collider) (v : Vec2) (gs : GameState) :
    (respondCollider p c v gs).gs.lives ≤ gs.lives := by
  cases hcol : collide p BALL_SIZE c.pos c.size with
  | none => rw [respond_none _ _ _ _ hcol]
  | some col =>
    cases hk : c.kind with
    | paddle => rw [respond_paddle _ _ _ _ _ hcol hk]; split <;> exact le_refl _
    | wall => rw [respond_wall _ _ _ _ _ hcol hk]
    | bottomWall => rw [respond_bottom _ _ _ _ _ hcol hk]; exact Nat.sub_le _ _
    | brick => rw [respond_brick _ _ _ _ _ hcol hk]

theorem respond_lives_or_waiting (p : Vec2) (c : Collider) (v : Vec2) (gs : GameState) :
    (respondCollider p c v gs).gs.lives = gs.lives ∨
      (respondCollider p c v gs).gs.ball_waiting = true := by
  cases hcol : collide p BALL_SIZE c.pos c.size with
  | none => rw [respond_none _ _ _ _ hcol]; exact Or.inl rfl
  | some col =>
    cases hk : c.kind with
    | paddle =>
      rw [respond_paddle _ _ _ _ _ hcol hk]
      split <;> exact Or.inl rfl
    | wall => rw [respond_wall _ _ _ _ _ hcol hk]; exact Or.inl rfl
    | bottomWall => rw [respond_bottom _ _ _ _ _ hcol hk]; exact Or.inr rfl
    | brick => rw [respond_brick _ _ _ _ _ hcol hk]; exact Or.inl rfl

theorem foldl_waiting (p : Vec2) (l : List Collider) (acc : Vec2 × GameState)
    (h : acc.2.ball_waiting = true) :
    (l.foldl (passStep p) acc).2.ball_waiting = true := by
  induction l generalizing acc with
  | nil => exact h
  | cons c t ih =>
    rw [List.foldl_cons]
    exact ih _ (respond_waiting p c acc.1 acc.2 h)

theorem foldl_lives_le (p : Vec2) (l : List Collider) (acc : Vec2 × GameState) :
    (l.foldl (passStep p) acc).2.lives ≤ acc.2.lives := by
  induction l generalizing acc with
  | nil => exact le_refl _
  | cons c t ih =>
    rw [List.foldl_cons]
    exact le_trans (ih _) (respond_lives_le p c acc.1 acc.2)

theorem foldl_lives_or_waiting (p : Vec2) (l : List Collider) (acc : Vec2 × GameState) :
    (l.foldl (passStep p) acc).2.lives = acc.2.lives ∨
      (l.foldl (passStep p) acc).2.ball_waiting = true := by
  induction l generalizing acc with
  | nil => exact Or.inl rfl
  | cons c t ih =>
    rw [List.foldl_cons]
    rcases respond_lives_or_waiting p c acc.1 acc.2 with h | h
    · rcases ih (passStep p acc c) with h2 | h2
      · exact Or.inl (h2.trans h)
      · exact Or.inr h2
    · exact Or.inr (foldl_waiting p t _ h)

theorem foldl_no_collide (p : Vec2) (l : List Collider) (acc : Vec2 × GameState)
    (h : ∀ c ∈ l, collide p BALL_SIZE c.pos c.size = none) :
    l.foldl (passStep p) acc = acc := by
  induction l generalizing acc with
  | nil => rfl
  | cons c t ih =>
    rw [List.foldl_cons]
    have hs : passStep p acc c = acc := by
      simp [passStep, respond_none p c acc.1 acc.2 (h c (by simp))]
    rw [hs]
    exact ih _ (fun d hd => h d (by simp [hd]))

theorem brick_overlap_y (p : Vec2) (c : Collider) (hy : (170 : ℚ) ≤ c.pos.y)
    (hsz : c.size = BRICK_SIZE) (h : aabbOverlap p BALL_SIZE c.pos c.size) :
    (142 : ℚ) < p.y := by
  obtain ⟨_, _, _, h4⟩ := h
  rw [hsz] at h4
  norm_num [BRICK_SIZE, BALL_SIZE] at h4
  linarith

theorem bottom_overlap_y (p : Vec2) (c : Collider) (hp : c.pos = bottomWallC.pos)
    (hsz : c.size = bottomWallC.size) (h : aabbOverlap p BALL_SIZE c.pos c.size) :
    p.y < -375 := by
  obtain ⟨_, _, h3, _⟩ := h
  rw [hp, hsz] at h3
  norm_num [bottomWallC, BALL_SIZE, BOTTOM_WALL, CANVAS_HEIGHT, CANVAS_WIDTH,
    WALL_THICKNESS] at h3
  linarith

theorem top_no_collide (p : Vec2) (hy : p.y < -375) :
    collide p BALL_SIZE topWallC.pos topWallC.size = none := by
  apply collide_eq_none
  intro hov
  obtain ⟨_, _, _, h4⟩ := hov
  norm_num [topWallC, BALL_SIZE, TOP_WALL, CANVAS_HEIGHT, CANVAS_WIDTH, WALL_THICKNESS] at h4
  linarith

theorem bricks_no_collide (p : Vec2) (bricks : List Vec2)
    (hbr : ∀ b ∈ bricks, (170 : ℚ) ≤ b.y) (hy : p.y < -375) :
    ∀ c ∈ bricks.map brickC, collide p BALL_SIZE c.pos c.size = none := by
  intro c hc
  rcases List.mem_map.mp hc with ⟨b, hb, rfl⟩
  apply collide_eq_none
  intro hov
  have := brick_overlap_y p (brickC b) (by simpa [brickC] using hbr b hb)
    (by simp [brickC]) hov
  linarith

theorem rclamp_ge (v lo hi : ℚ) (h : lo ≤ hi) : lo ≤ rclamp v lo hi := by
  unfold rclamp
  split_ifs with h1 h2
  · exact le_refl _
  · exact h
  · exact not_lt.mp h1

theorem rclamp_le (v lo hi : ℚ) (h : lo ≤ hi) : rclamp v lo hi ≤ hi := by
  unfold rclamp
  split_ifs with h1 h2
  · exact h
  · exact le_refl _
  · exact not_lt.mp h2

theorem paddle_bounds_le : paddleLeftBound ≤ paddleRightBound := by
  norm_num [paddleLeftBound, paddleRightBound, LEFT_WALL, RIGHT_WALL, CANVAS_WIDTH,
    WALL_THICKNESS, PADDLE_SIZE, PADDLE_PADDING]

theorem paddlePhase_mem (i : Input) (x : ℚ) :
    paddleLeftBound ≤ paddlePhase i x ∧ paddlePhase i x ≤ paddleRightBound := by
  unfold paddlePhase move_paddle_by_mouse
  cases i.cursor with
  | none =>
    unfold move_paddle
    exact ⟨rclamp_ge _ _ _ paddle_bounds_le, rclamp_le _ _ _ paddle_bounds_le⟩
  | some cx =>
    exact ⟨rclamp_ge _ _ _ paddle_bounds_le, rclamp_le _ _ _ paddle_bounds_le⟩

theorem stuck_no_collide (px : ℚ) (bricks : List Vec2)
    (hbr : ∀ b ∈ bricks, (170 : ℚ) ≤ b.y)
    (hl : paddleLeftBound ≤ px) (hr : px ≤ paddleRightBound) (c : Collider)
    (hc : c ∈ paddleC px :: leftWallC :: rightWallC :: bottomWallC :: topWallC ::
      bricks.map brickC) :
    collide ⟨px, PADDLE_Y + 25⟩ BALL_SIZE c.pos c.size = none := by
  have hlb : (-410 : ℚ) ≤ px := by
    have := hl
    norm_num [paddleLeftBound, LEFT_WALL, CANVAS_WIDTH, WALL_THICKNESS, PADDLE_SIZE,
      PADDLE_PADDING] at this
    linarith
  have hrb : px ≤ 410 := by
    have := hr
    norm_num [paddleRightBound, RIGHT_WALL, CANVAS_WIDTH, WALL_THICKNESS, PADDLE_SIZE,
      PADDLE_PADDING] at this
    linarith
  simp only [List.mem_cons] at hc
  rcases hc with rfl | rfl | rfl | rfl | rfl | hc
  · apply collide_eq_none
    intro hov
    obtain ⟨_, _, h3, _⟩ := hov
    norm_num [paddleC, PADDLE_Y, BOTTOM_WALL, CANVAS_HEIGHT, PADDLE_SIZE, BALL_SIZE] at h3
  · apply collide_eq_none
    intro hov
    obtain ⟨h1, _, _, _⟩ := hov
    norm_num [leftWallC, LEFT_WALL, CANVAS_WIDTH, CANVAS_HEIGHT, WALL_THICKNESS,
      BALL_SIZE] at h1
    linarith
  · apply collide_eq_none
    intro hov
    obtain ⟨_, h2, _, _⟩ := hov
    norm_num [rightWallC, RIGHT_WALL, CANVAS_WIDTH, CANVAS_HEIGHT, WALL_THICKNESS,
      BALL_SIZE] at h2
    linarith
  · apply collide_eq_none
    intro hov
    obtain ⟨_, _, h3, _⟩ := hov
    norm_num [bottomWallC, BOTTOM_WALL, CANVAS_HEIGHT, CANVAS_WIDTH, WALL_THICKNESS,
      BALL_SIZE, PADDLE_Y] at h3
  · apply collide_eq_none
    intro hov
    obtain ⟨_, _, _, h4⟩ := hov
    norm_num [topWallC, TOP_WALL, CANVAS_HEIGHT, CANVAS_WIDTH, WALL_THICKNESS,
      BALL_SIZE, PADDLE_Y, BOTTOM_WALL] at h4
  · rcases List.mem_map.mp hc with ⟨b, hb, rfl⟩
    apply collide_eq_none
    intro hov
    have h142 := brick_overlap_y _ (brickC b) (by simpa [brickC] using hbr b hb)
      (by simp [brickC]) hov
    norm_num [PADDLE_Y, BOTTOM_WALL, CANVAS_HEIGHT] at h142

theorem preTick_flying (w : World) (i : Input) (hbw : w.gs.ball_waiting = false) :
    preTick w i = { w with paddleX := paddlePhase i w.paddleX,
                           ballPos := ⟨w.ballPos.x + w.ballVel.x * TIME_STEP,
                                       w.ballPos.y + w.ballVel.y * TIME_STEP⟩ } := by
  unfold preTick apply_velocity handle_waiting_click stick_ball_to_paddle
  simp [hbw]

theorem preTick_launch (w : World) (i : Input)
    (hc : 0 < w.gs.lives ∧ w.gs.ball_waiting = true ∧
      (i.keySpace || i.mouseJustPressed) = true) :
    preTick w i =
      { w with paddleX := paddlePhase i w.paddleX,
               gs := { w.gs with ball_waiting := false },
               ballVel := launchVel i,
               ballPos := ⟨paddlePhase i w.paddleX + (launchVel i).x * TIME_STEP,
                           (PADDLE_Y + 25) + (launchVel i).y * TIME_STEP⟩ } := by
  obtain ⟨h1, h2, h3⟩ := hc
  unfold preTick apply_velocity handle_waiting_click stick_ball_to_paddle
  simp [h1, h2, h3]

theorem preTick_nolaunch_key (w : World) (i : Input) (hbw : w.gs.ball_waiting = true)
    (hni : (i.keySpace || i.mouseJustPressed) = false) :
    preTick w i =
      { w with paddleX := paddlePhase i w.paddleX,
               ballPos := ⟨paddlePhase i w.paddleX + w.ballVel.x * TIME_STEP,
                           (PADDLE_Y + 25) + w.ballVel.y * TIME_STEP⟩ } := by
  unfold preTick apply_velocity handle_waiting_click stick_ball_to_paddle
  simp [hbw, hni]

theorem preTick_dead (w : World) (i : Input) (hbw : w.gs.ball_waiting = true)
    (h0 : w.gs.lives = 0) :
    preTick w i =
      { w with paddleX := paddlePhase i w.paddleX,
               ballPos := ⟨paddlePhase i w.paddleX + w.ballVel.x * TIME_STEP,
                           (PADDLE_Y + 25) + w.ballVel.y * TIME_STEP⟩ } := by
  unfold preTick apply_velocity handle_waiting_click stick_ball_to_paddle
  simp [hbw, h0]

theorem preTick_gs_lives (w : World) (i : Input) :
    (preTick w i).gs.lives = w.gs.lives := by
  unfold preTick apply_velocity handle_waiting_click stick_ball_to_paddle
  split_ifs <;> rfl

theorem preTick_gs_score (w : World) (i : Input) :
    (preTick w i).gs.score = w.gs.score := by
  unfold preTick apply_velocity handle_waiting_click stick_ball_to_paddle
  split_ifs <;> rfl

theorem preTick_bricks (w : World) (i : Input) :
    (preTick w i).bricks = w.bricks := by
  unfold preTick apply_velocity handle_waiting_click stick_ball_to_paddle
  split_ifs <;> rfl

theorem preTick_paddleX (w : World) (i : Input) :
    (preTick w i).paddleX = paddlePhase i w.paddleX := by
  unfold preTick apply_velocity handle_waiting_click stick_ball_to_paddle
  split_ifs <;> rfl

theorem preTick_waiting_of_dead (w : World) (i : Input) (h0 : w.gs.lives = 0) :
    (preTick w i).gs.ball_waiting = w.gs.ball_waiting := by
  cases hbw : w.gs.ball_waiting with
  | false => rw [preTick_flying w i hbw]; exact hbw
  | true => rw [preTick_dead w i hbw h0]; exact hbw

theorem preTick_waiting (w : World) (i : Input)
    (hA : w.gs.ball_waiting = true → w.ballVel = ⟨0, 0⟩)
    (hw : (preTick w i).gs.ball_waiting = true) :
    (preTick w i).ballVel = ⟨0, 0⟩ ∧
      (preTick w i).ballPos = ⟨paddlePhase i w.paddleX, PADDLE_Y + 25⟩ ∧
      w.gs.ball_waiting = true := by
  cases hbw : w.gs.ball_waiting with
  | false =>
    rw [preTick_flying w i hbw] at hw
    rw [hbw] at hw
    exact Bool.noConfusion hw
  | true =>
    have hv := hA hbw
    by_cases hni : (i.keySpace || i.mouseJustPressed) = true
    · by_cases hl0 : 0 < w.gs.lives
      · rw [preTick_launch w i ⟨hl0, hbw, hni⟩] at hw
        exact Bool.noConfusion hw
      · have h0 : w.gs.lives = 0 := by omega
        rw [preTick_dead w i hbw h0]
        refine ⟨hv, ?_, rfl⟩
        rw [hv]
        simp
    · have hni' : (i.keySpace || i.mouseJustPressed) = false := by
        cases hx : (i.keySpace || i.mouseJustPressed)
        · rfl
        · exact absurd hx hni
      rw [preTick_nolaunch_key w i hbw hni']
      refine ⟨hv, ?_, rfl⟩
      rw [hv]
      simp

theorem respond_J (p : Vec2) (c : Collider) (v : Vec2) (gs : GameState)
    (hbr : c.kind = ColliderKind.brick → (170 : ℚ) ≤ c.pos.y ∧ c.size = BRICK_SIZE)
    (hbot : c.kind = ColliderKind.bottomWall →
      c.pos = bottomWallC.pos ∧ c.size = bottomWallC.size)
    (hJ : gs.ball_waiting = true → v = ⟨0, 0⟩ ∧ (p.y = PADDLE_Y + 25 ∨ p.y < -375))
    (hw : (respondCollider p c v gs).gs.ball_waiting = true) :
    (respondCollider p c v gs).vel = ⟨0, 0⟩ ∧ (p.y = PADDLE_Y + 25 ∨ p.y < -375) := by
  cases hcol : collide p BALL_SIZE c.pos c.size with
  | none =>
    rw [respond_none _ _ _ _ hcol] at hw ⊢
    exact hJ hw
  | some col =>
    cases hk : c.kind with
    | paddle =>
      rw [respond_paddle _ _ _ _ _ hcol hk] at hw ⊢
      by_cases hfl : (reflectYFlag col v || reflectXFlag col v) = true
      · rw [if_pos hfl] at hw ⊢
        obtain ⟨hv, hp⟩ := hJ hw
        subst hv
        rw [reflectXFlag_zero, reflectYFlag_zero] at hfl
        exact Bool.noConfusion hfl
      · rw [if_neg hfl] at hw ⊢
        obtain ⟨hv, hp⟩ := hJ hw
        subst hv
        exact ⟨reflectVel_zero col, hp⟩
    | wall =>
      rw [respond_wall _ _ _ _ _ hcol hk] at hw ⊢
      obtain ⟨hv, hp⟩ := hJ hw
      subst hv
      exact ⟨reflectVel_zero col, hp⟩
    | bottomWall =>
      rw [respond_bottom _ _ _ _ _ hcol hk]
      obtain ⟨hp, hs⟩ := hbot hk
      exact ⟨reflectVel_zero col,
        Or.inr (bottom_overlap_y p c hp hs (overlap_of_collide_eq_some _ _ _ _ col hcol))⟩
    | brick =>
      rw [respond_brick _ _ _ _ _ hcol hk] at hw
      obtain ⟨hy, hs⟩ := hbr hk
      have h142 := brick_overlap_y p c hy hs (overlap_of_collide_eq_some _ _ _ _ col hcol)
      obtain ⟨hv, hp⟩ := hJ hw
      exfalso
      rcases hp with hp | hp
      · rw [hp] at h142
        norm_num [PADDLE_Y, BOTTOM_WALL, CANVAS_HEIGHT] at h142
      · linarith

theorem foldl_J (p : Vec2) (l : List Collider) (acc : Vec2 × GameState)
    (hsh : ∀ c ∈ l,
      (c.kind = ColliderKind.brick → (170 : ℚ) ≤ c.pos.y ∧ c.size = BRICK_SIZE) ∧
      (c.kind = ColliderKind.bottomWall →
        c.pos = bottomWallC.pos ∧ c.size = bottomWallC.size))
    (hJ : acc.2.ball_waiting = true → acc.1 = ⟨0, 0⟩ ∧ (p.y = PADDLE_Y + 25 ∨ p.y < -375))
    (hw : (l.foldl (passStep p) acc).2.ball_waiting = true) :
    (l.foldl (passStep p) acc).1 = ⟨0, 0⟩ ∧ (p.y = PADDLE_Y + 25 ∨ p.y < -375) := by
  induction l generalizing acc with
  | nil => exact hJ hw
  | cons c t ih =>
    rw [List.foldl_cons] at hw ⊢
    refine ih (passStep p acc c) (fun d hd => hsh d (List.mem_cons_of_mem _ hd)) ?_ hw
    intro hw2
    exact respond_J p c acc.1 acc.2 (hsh c (List.mem_cons_self _ _)).1
      (hsh c (List.mem_cons_self _ _)).2 hJ hw2

theorem colliders_shape (w : World) (hC : ∀ b ∈ w.bricks, (170 : ℚ) ≤ b.y) :
    ∀ c ∈ colliders w,
      (c.kind = ColliderKind.brick → (170 : ℚ) ≤ c.pos.y ∧ c.size = BRICK_SIZE) ∧
      (c.kind = ColliderKind.bottomWall →
        c.pos = bottomWallC.pos ∧ c.size = bottomWallC.size) := by
  intro c hc
  simp only [colliders, List.mem_cons] at hc
  rcases hc with rfl | rfl | rfl | rfl | rfl | hc
  · exact ⟨fun h => by simp [paddleC] at h, fun h => by simp [paddleC] at h⟩
  · exact ⟨fun h => by simp [leftWallC] at h, fun h => by simp [leftWallC] at h⟩
  · exact ⟨fun h => by simp [rightWallC] at h, fun h => by simp [rightWallC] at h⟩
  · exact ⟨fun h => by simp [bottomWallC] at h, fun _ => ⟨rfl, rfl⟩⟩
  · exact ⟨fun h => by simp [topWallC] at h, fun h => by simp [topWallC] at h⟩
  · rcases List.mem_map.mp hc with ⟨b, hb, rfl⟩
    exact ⟨fun _ => ⟨by simpa [brickC] using hC b hb, by simp [brickC]⟩,
           fun h => by simp [brickC] at h⟩

theorem tick_gs (w : World) (i : Input) :
    (tick w i).gs = ((colliders (preTick w i)).foldl (passStep (preTick w i).ballPos)
      ((preTick w i).ballVel, (preTick w i).gs)).2 := rfl

theorem tick_vel (w : World) (i : Input) :
    (tick w i).ballVel = ((colliders (preTick w i)).foldl (passStep (preTick w i).ballPos)
      ((preTick w i).ballVel, (preTick w i).gs)).1 := rfl

theorem tick_bricks (w : World) (i : Input) :
    (tick w i).bricks = (preTick w i).bricks.filter
      (fun b => (collide (preTick w i).ballPos BALL_SIZE b BRICK_SIZE).isNone) := rfl

theorem tick_inv (w : World) (i : Input) (h : Inv w) : Inv (tick w i) := by
  obtain ⟨hA, hB, hC⟩ := h
  have hCpre : ∀ b ∈ (preTick w i).bricks, (170 : ℚ) ≤ b.y := by
    rw [preTick_bricks]
    exact hC
  refine ⟨?_, ?_, ?_⟩
  · intro hw
    rw [tick_gs] at hw
    rw [tick_vel]
    refine (foldl_J _ _ _ (colliders_shape _ hCpre) ?_ hw).1
    intro hw2
    obtain ⟨hv, hp, _⟩ := preTick_waiting w i hA hw2
    exact ⟨hv, Or.inl (by rw [hp])⟩
  · intro h0
    rw [tick_gs] at h0 ⊢
    rcases foldl_lives_or_waiting (preTick w i).ballPos (colliders (preTick w i))
        ((preTick w i).ballVel, (preTick w i).gs) with hl | hww
    · have hl2 : ((colliders (preTick w i)).foldl (passStep (preTick w i).ballPos)
          ((preTick w i).ballVel, (preTick w i).gs)).2.lives = (preTick w i).gs.lives := hl
      have hwl : w.gs.lives = 0 := by
        rw [← preTick_gs_lives w i]
        omega
      have hwt : (preTick w i).gs.ball_waiting = true := by
        rw [preTick_waiting_of_dead w i hwl]
        exact hB hwl
      exact foldl_waiting _ _ _ hwt
    · exact hww
  · intro b hb
    rw [tick_bricks] at hb
    have hm := List.mem_of_mem_filter hb
    rw [preTick_bricks] at hm
    exact hC b hm

theorem inv_init : Inv init := by
  with_unfolding_all decide

theorem reachable_inv (w : World) (h : Reachable w) : Inv w := by
  induction h with
  | init => exact inv_init
  | step w i _ ih => exact tick_inv w i ih

theorem tick_lives_le (w : World) (i : Input) : (tick w i).gs.lives ≤ w.gs.lives := by
  have h1 := foldl_lives_le (preTick w i).ballPos (colliders (preTick w i))
    ((preTick w i).ballVel, (preTick w i).gs)
  have h2 : ((preTick w i).ballVel, (preTick w i).gs).2.lives = w.gs.lives :=
    preTick_gs_lives w i
  rw [tick_gs]
  omega

theorem tick_dead (w : World) (i : Input) (h : Inv w) (h0 : w.gs.lives = 0) :
    Inv (tick w i) ∧ (tick w i).gs.lives = 0 := by
  refine ⟨tick_inv w i h, ?_⟩
  have h1 := tick_lives_le w i
  omega

theorem foldl_tick_dead (inputs : List Input) (w : World) (h : Inv w)
    (h0 : w.gs.lives = 0) :
    Inv (inputs.foldl tick w) ∧ (inputs.foldl tick w).gs.lives = 0 := by
  induction inputs generalizing w with
  | nil => exact ⟨h, h0⟩
  | cons i t ih =>
    rw [List.foldl_cons]
    obtain ⟨h1, h2⟩ := tick_dead w i h h0
    exact ih _ h1 h2

theorem passStep_gs_nonspecial (p : Vec2) (acc : Vec2 × GameState) (c : Collider)
    (hk : c.kind = ColliderKind.paddle ∨ c.kind = ColliderKind.wall) :
    (passStep p acc c).2 = acc.2 :=
  respond_gs_nonspecial p c acc.1 acc.2 hk

theorem pass_bottom_hit (px : ℚ) (p : Vec2) (v : Vec2) (gs : GameState)
    (bricks : List Vec2) (hbr : ∀ b ∈ bricks, (170 : ℚ) ≤ b.y) (col : Collision)
    (hcol : collide p BALL_SIZE bottomWallC.pos bottomWallC.size = some col) :
    ((paddleC px :: leftWallC :: rightWallC :: bottomWallC :: topWallC ::
        bricks.map brickC).foldl (passStep p) (v, gs)) =
      (⟨0, 0⟩, { gs with ball_waiting := true, lives := gs.lives - 1 }) := by
  have hpy : p.y < -375 :=
    bottom_overlap_y p bottomWallC rfl rfl (overlap_of_collide_eq_some _ _ _ _ col hcol)
  rw [List.foldl_cons, List.foldl_cons, List.foldl_cons, List.foldl_cons]
  set a3 := passStep p (passStep p (passStep p (v, gs) (paddleC px)) leftWallC)
    rightWallC with ha3
  have hg3 : a3.2 = gs := by
    rw [ha3, passStep_gs_nonspecial _ _ _ (Or.inr rfl),
        passStep_gs_nonspecial _ _ _ (Or.inr rfl),
        passStep_gs_nonspecial _ _ _ (Or.inl rfl)]
  have h4 : passStep p a3 bottomWallC =
      ((⟨0, 0⟩ : Vec2), { gs with ball_waiting := true, lives := gs.lives - 1 }) := by
    have hr := respond_bottom p bottomWallC a3.1 a3.2 col hcol rfl
    rw [hg3] at hr
    simp [passStep, hg3, hr, reflectVel_zero]
  rw [h4]
  apply foldl_no_collide
  intro c hc
  rcases List.mem_cons.mp hc with rfl | hc
  · exact top_no_collide p hpy
  · exact bricks_no_collide p bricks hbr hpy c hc

theorem check_bricks (w : World) :
    (check_for_collisions w).bricks =
      w.bricks.filter (fun b => (collide w.ballPos BALL_SIZE b BRICK_SIZE).isNone) := rfl

/-- C1: whenever the collision pass of a tick classifies a collision between
the ball and the bottom wall (in any reachable or invariant-satisfying
state), the response zeroes both velocity components, sets the waiting
flag, and decreases `lives` by exactly one. -/
theorem bottom_wall_hit_effects (w : World) (h : Reachable w ∨ Inv w) (i : Input)
    (hhit : (collide (preTick w i).ballPos BALL_SIZE bottomWallC.pos
      bottomWallC.size).isSome = true) :
    (tick w i).ballVel = ⟨0, 0⟩ ∧ (tick w i).gs.ball_waiting = true ∧
      (tick w i).gs.lives + 1 = w.gs.lives := by
  have hI : Inv w := by
    rcases h with h | h
    exacts [reachable_inv w h, h]
  obtain ⟨hA, hB, hC⟩ := hI
  obtain ⟨col, hcol⟩ := Option.isSome_iff_exists.mp hhit
  have hnw : (preTick w i).gs.ball_waiting = false := by
    cases hx : (preTick w i).gs.ball_waiting with
    | false => rfl
    | true =>
      obtain ⟨hv, hp, _⟩ := preTick_waiting w i hA hx
      rw [hp] at hcol
      rw [stuck_no_collide (paddlePhase i w.paddleX) w.bricks hC
        (paddlePhase_mem i w.paddleX).1 (paddlePhase_mem i w.paddleX).2 bottomWallC
        (by simp)] at hcol
      exact Option.noConfusion hcol
  have hl1 : 1 ≤ w.gs.lives := by
    by_contra hl0
    have h0 : w.gs.lives = 0 := by omega
    have hwt : (preTick w i).gs.ball_waiting = true := by
      rw [preTick_waiting_of_dead w i h0]
      exact hB h0
    rw [hnw] at hwt
    exact Bool.noConfusion hwt
  have hCpre : ∀ b ∈ (preTick w i).bricks, (170 : ℚ) ≤ b.y := by
    rw [preTick_bricks]
    exact hC
  have hfold := pass_bottom_hit (preTick w i).paddleX (preTick w i).ballPos
    (preTick w i).ballVel (preTick w i).gs (preTick w i).bricks hCpre col hcol
  have hcoll : colliders (preTick w i) =
      paddleC (preTick w i).paddleX :: leftWallC :: rightWallC :: bottomWallC ::
        topWallC :: (preTick w i).bricks.map brickC := rfl
  refine ⟨?_, ?_, ?_⟩
  · rw [tick_vel, hcoll, hfold]
  · rw [tick_gs, hcoll, hfold]
  · rw [tick_gs, hcoll, hfold]
    show (preTick w i).gs.lives - 1 + 1 = w.gs.lives
    have h2 := preTick_gs_lives w i
    omega

theorem bottom_wall_hit_effects_witness :
    (tick fallWorld noInput).ballVel = ⟨0, 0⟩ ∧
      (tick fallWorld noInput).gs.ball_waiting = true ∧
      (tick fallWorld noInput).gs.lives + 1 = fallWorld.gs.lives :=
  bottom_wall_hit_effects fallWorld (Or.inr (by with_unfolding_all decide)) noInput
    (by with_unfolding_all decide)

/-- C2: in every reachable (or invariant-satisfying) state with no lives
left, the collision pass never classifies a bottom-wall collision — the
ball is stuck to the paddle, far from the bottom wall — so the lives
decrement never executes and `lives` stays 0 after the tick. -/
theorem no_life_loss_after_game_over (w : World) (h : Reachable w ∨ Inv w)
    (h0 : w.gs.lives = 0) (i : Input) :
    collide (preTick w i).ballPos BALL_SIZE bottomWallC.pos bottomWallC.size = none ∧
    (tick w i).gs.lives = 0 := by
  have hI : Inv w := by
    rcases h with h | h
    exacts [reachable_inv w h, h]
  obtain ⟨hA, hB, hC⟩ := hI
  have hwt : (preTick w i).gs.ball_waiting = true := by
    rw [preTick_waiting_of_dead w i h0]
    exact hB h0
  obtain ⟨hv, hp, _⟩ := preTick_waiting w i hA hwt
  constructor
  · rw [hp]
    exact stuck_no_collide (paddlePhase i w.paddleX) w.bricks hC
      (paddlePhase_mem i w.paddleX).1 (paddlePhase_mem i w.paddleX).2 bottomWallC (by simp)
  · have := tick_lives_le w i
    omega

theorem no_life_loss_after_game_over_witness :
    collide (preTick deadWorld noInput).ballPos BALL_SIZE bottomWallC.pos
      bottomWallC.size = none ∧
    (tick deadWorld noInput).gs.lives = 0 :=
  no_life_loss_after_game_over deadWorld (Or.inr (by with_unfolding_all decide)) rfl noInput

/-- C3: from any state with lives remaining and a waiting ball, a launch
intent clears the waiting flag and sets the velocity to
(±BALL_SPEED/2, BALL_SPEED/2) — x negative exactly when the aim-left key is
held — and the same tick's integration moves the ball by velocity times the
1/60 timestep from its paddle-snapped start. -/
theorem launch_sets_velocity_and_integrates (w : World) (i : Input)
    (hl : 0 < w.gs.lives) (hw : w.gs.ball_waiting = true)
    (hi : (i.keySpace || i.mouseJustPressed) = true) :
    (preTick w i).gs.ball_waiting = false ∧
    (preTick w i).ballVel = launchVel i ∧
    launchVel i = (if i.keyLeft then (⟨-250, 250⟩ : Vec2) else ⟨250, 250⟩) ∧
    (preTick w i).ballPos =
      ⟨paddlePhase i w.paddleX + (launchVel i).x * TIME_STEP,
       (PADDLE_Y + 25) + (launchVel i).y * TIME_STEP⟩ ∧
    (i.keyLeft = false →
      (preTick w i).ballPos =
        ⟨paddlePhase i w.paddleX + 250 / 60, -345 + 250 / 60⟩) := by
  rw [preTick_launch w i ⟨hl, hw, hi⟩]
  refine ⟨rfl, rfl, ?_, rfl, ?_⟩
  · unfold launchVel BALL_SPEED
    split_ifs <;> norm_num [Vec2.mk.injEq]
  · intro hkl
    have hlv : launchVel i = ⟨250, 250⟩ := by
      unfold launchVel BALL_SPEED
      simp [hkl]
      norm_num [Vec2.mk.injEq]
    rw [hlv]
    norm_num [Vec2.mk.injEq, TIME_STEP, PADDLE_Y, BOTTOM_WALL, CANVAS_HEIGHT]

theorem launch_sets_velocity_and_integrates_witness :
    (preTick init launchInput).gs.ball_waiting = false ∧
    (preTick init launchInput).ballVel = launchVel launchInput ∧
    launchVel launchInput =
      (if launchInput.keyLeft then (⟨-250, 250⟩ : Vec2) else ⟨250, 250⟩) ∧
    (preTick init launchInput).ballPos =
      ⟨paddlePhase launchInput init.paddleX + (launchVel launchInput).x * TIME_STEP,
       (PADDLE_Y + 25) + (launchVel launchInput).y * TIME_STEP⟩ ∧
    (launchInput.keyLeft = false →
      (preTick init launchInput).ballPos =
        ⟨paddlePhase launchInput init.paddleX + 250 / 60, -345 + 250 / 60⟩) :=
  launch_sets_velocity_and_integrates init launchInput (by decide) rfl rfl

/-- C4: lives never increase across a tick, and once lives reach 0 the
waiting flag stays set, the velocity stays zero and lives stay 0 under
every further input sequence — launch intents included. -/
theorem lives_monotone_and_game_over_permanent (w : World) (h : Reachable w ∨ Inv w)
    (i : Input) (inputs : List Input) :
    (tick w i).gs.lives ≤ w.gs.lives ∧
    (w.gs.lives = 0 →
      (inputs.foldl tick w).gs.ball_waiting = true ∧
      (inputs.foldl tick w).ballVel = ⟨0, 0⟩ ∧
      (inputs.foldl tick w).gs.lives = 0) := by
  have hI : Inv w := by
    rcases h with h | h
    exacts [reachable_inv w h, h]
  refine ⟨tick_lives_le w i, fun h0 => ?_⟩
  obtain ⟨hI2, hl⟩ := foldl_tick_dead inputs w hI h0
  obtain ⟨hA, hB, _⟩ := hI2
  have hw := hB hl
  exact ⟨hw, hA hw, hl⟩

theorem lives_monotone_and_game_over_permanent_witness :
    (tick deadWorld noInput).gs.lives ≤ deadWorld.gs.lives ∧
    (([noInput, launchInput].foldl tick deadWorld).gs.ball_waiting = true ∧
     ([noInput, launchInput].foldl tick deadWorld).ballVel = ⟨0, 0⟩ ∧
     ([noInput, launchInput].foldl tick deadWorld).gs.lives = 0) := by
  have h := lives_monotone_and_game_over_permanent deadWorld
    (Or.inr (by with_unfolding_all decide)) noInput [noInput, launchInput]
  exact ⟨h.1, h.2 rfl⟩

/-- C5 (amended): a classified ball-brick collision despawns the brick
(removing it from the collider set), increments the score by exactly one,
and changes the y velocity in the brick branch to `vy + 10` when `vy` is
strictly positive and to `vy - 10` otherwise (zero included), keeping the
direction of a nonzero `vy` and growing the y-velocity magnitude by
exactly 10. -/
theorem brick_hit_effects (w : World) (b : Vec2) (hb : b ∈ w.bricks) (v : Vec2)
    (gs : GameState) (col : Collision)
    (hcol : collide w.ballPos BALL_SIZE (brickC b).pos (brickC b).size = some col) :
    (respondCollider w.ballPos (brickC b) v gs).despawned = true ∧
    (respondCollider w.ballPos (brickC b) v gs).gs.score = gs.score + 1 ∧
    b ∉ (check_for_collisions w).bricks ∧
    (brickBounce v).y = (if 0 < v.y then v.y + 10 else v.y - 10) ∧
    (0 < v.y → 0 < (brickBounce v).y) ∧
    (v.y < 0 → (brickBounce v).y < 0) ∧
    |(respondCollider w.ballPos (brickC b) v gs).vel.y| = |v.y| + 10 := by
  have hr := respond_brick w.ballPos (brickC b) v gs col hcol rfl
  have hby : (brickBounce v).y = (if 0 < v.y then v.y + 10 else v.y - 10) := by
    unfold brickBounce CALL_COLLISION_SPEED_INCREASE
    split_ifs <;> rfl
  refine ⟨by rw [hr], by rw [hr], ?_, hby, ?_, ?_, ?_⟩
  · intro hmem
    rw [check_bricks] at hmem
    have hnone := List.of_mem_filter hmem
    rw [show (brickC b).pos = b from rfl, show (brickC b).size = BRICK_SIZE from rfl] at hcol
    rw [hcol] at hnone
    exact Bool.noConfusion hnone
  · intro hpos
    rw [hby, if_pos hpos]
    linarith
  · intro hneg
    rw [hby, if_neg (by linarith)]
    linarith
  · rw [hr]
    have habs : |(reflectVel col (brickBounce v)).y| = |(brickBounce v).y| := by
      unfold reflectVel
      split_ifs <;> simp [abs_neg]
    show |(reflectVel col (brickBounce v)).y| = |v.y| + 10
    rw [habs, hby]
    split_ifs with hpos
    · rw [abs_of_pos (by linarith), abs_of_pos hpos]
    · have h0 : v.y ≤ 0 := le_of_not_lt hpos
      rw [abs_of_neg (by linarith), abs_of_nonpos h0]
      ring

theorem brick_hit_effects_witness :
    (respondCollider brickWorld.ballPos (brickC ⟨0, 320⟩) ⟨200, -50⟩
      brickWorld.gs).despawned = true ∧
    (respondCollider brickWorld.ballPos (brickC ⟨0, 320⟩) ⟨200, -50⟩
      brickWorld.gs).gs.score = brickWorld.gs.score + 1 ∧
    (⟨0, 320⟩ : Vec2) ∉ (check_for_collisions brickWorld).bricks ∧
    (brickBounce ⟨200, -50⟩).y = (if (0 : ℚ) < (-50 : ℚ) then -50 + 10 else -50 - 10) ∧
    ((0 : ℚ) < (-50 : ℚ) → (0 : ℚ) < (brickBounce ⟨200, -50⟩).y) ∧
    ((-50 : ℚ) < 0 → (brickBounce ⟨200, -50⟩).y < 0) ∧
    |(respondCollider brickWorld.ballPos (brickC ⟨0, 320⟩) ⟨200, -50⟩
      brickWorld.gs).vel.y| = |(-50 : ℚ)| + 10 :=
  brick_hit_effects brickWorld ⟨0, 320⟩ (by with_unfolding_all decide) ⟨200, -50⟩
    brickWorld.gs Collision.Left (by with_unfolding_all decide)

/-- C5 counterexample: with incoming y velocity exactly 0 (a non-negative
value) and a classified Left-side brick collision, the code subtracts 10
(the branch is `vy > 0`), while the claim's sign rule (non-negative adds
10) would give +10. -/
theorem brick_hit_sign_counterexample :
    collide brickWorld.ballPos BALL_SIZE (brickC ⟨0, 320⟩).pos (brickC ⟨0, 320⟩).size =
      some Collision.Left ∧
    (0 : ℚ) ≤ brickWorld.ballVel.y ∧
    (respondCollider brickWorld.ballPos (brickC ⟨0, 320⟩) brickWorld.ballVel
      brickWorld.gs).vel.y = -10 ∧
    ¬((respondCollider brickWorld.ballPos (brickC ⟨0, 320⟩) brickWorld.ballVel
      brickWorld.gs).vel.y = brickWorld.ballVel.y + 10) := by
  with_unfolding_all decide

/-- C6 (amended): a paddle collision with a reflect flag set always applies
the paddle override — `vy` becomes the negation of the incoming `vy`, and
`vx` is recomputed as `clamp((ball.x - paddle.x)/70, -0.8, 0.8) * BALL_SPEED`;
a +35 contact offset yields `vx = BALL_SPEED/2`, and a downward-moving ball
leaves the paddle moving upward (`vy > 0`). -/
theorem paddle_bounce_formula (p : Vec2) (px : ℚ) (v : Vec2) (gs : GameState)
    (col : Collision)
    (hcol : collide p BALL_SIZE (paddleC px).pos (paddleC px).size = some col)
    (hrefl : (reflectYFlag col v || reflectXFlag col v) = true) :
    (respondCollider p (paddleC px) v gs).vel =
      ⟨rclamp ((p.x - px) / 70) (-(4 / 5)) (4 / 5) * BALL_SPEED, -v.y⟩ ∧
    (p.x - px = 35 → (respondCollider p (paddleC px) v gs).vel.x = 1 / 2 * BALL_SPEED) ∧
    (v.y < 0 → 0 < (respondCollider p (paddleC px) v gs).vel.y) ∧
    (respondCollider p (paddleC px) v gs).gs = gs := by
  have hr := respond_paddle p (paddleC px) v gs col hcol rfl
  rw [if_pos hrefl] at hr
  refine ⟨by rw [hr]; rfl, ?_, ?_, by rw [hr]⟩
  · intro h35
    rw [hr]
    show rclamp ((p.x - (paddleC px).pos.x) / 70) (-(4 / 5)) (4 / 5) * BALL_SPEED =
      1 / 2 * BALL_SPEED
    rw [show (paddleC px).pos.x = px from rfl, h35]
    norm_num [rclamp]
  · intro hvy
    rw [hr]
    show 0 < -v.y
    linarith

theorem paddle_bounce_formula_witness :
    (respondCollider ⟨35, -355⟩ (paddleC 0) ⟨0, -200⟩ ⟨0, false, 3⟩).vel =
      ⟨rclamp (((35 : ℚ) - 0) / 70) (-(4 / 5)) (4 / 5) * BALL_SPEED, -(-200 : ℚ)⟩ ∧
    ((35 : ℚ) - 0 = 35 →
      (respondCollider ⟨35, -355⟩ (paddleC 0) ⟨0, -200⟩ ⟨0, false, 3⟩).vel.x =
        1 / 2 * BALL_SPEED) ∧
    ((-200 : ℚ) < 0 →
      0 < (respondCollider ⟨35, -355⟩ (paddleC 0) ⟨0, -200⟩ ⟨0, false, 3⟩).vel.y) ∧
    (respondCollider ⟨35, -355⟩ (paddleC 0) ⟨0, -200⟩ ⟨0, false, 3⟩).gs = ⟨0, false, 3⟩ :=
  paddle_bounce_formula ⟨35, -355⟩ 0 ⟨0, -200⟩ ⟨0, false, 3⟩ Collision.Top
    (by with_unfolding_all decide) (by with_unfolding_all decide)

/-- C6 counterexample: a ball falling straight down onto the paddle top
(Top-side collision, `vy = -200 < 0`, reflect flag set) leaves the bounce
with `vy = 200 > 0`, refuting the claim that `vy < 0` holds after the
bounce regardless of the incoming sign. -/
theorem paddle_bounce_vy_counterexample :
    collide ⟨0, -355⟩ BALL_SIZE (paddleC 0).pos (paddleC 0).size =
      some Collision.Top ∧
    reflectYFlag Collision.Top ⟨0, -200⟩ = true ∧
    (respondCollider ⟨0, -355⟩ (paddleC 0) ⟨0, -200⟩ ⟨0, false, 3⟩).vel.y = 200 ∧
    ¬((respondCollider ⟨0, -355⟩ (paddleC 0) ⟨0, -200⟩ ⟨0, false, 3⟩).vel.y < 0) := by
  with_unfolding_all decide

/-- C7 (amended): for a plain wall collider (not the paddle, a brick, or
the bottom wall), the response is pure axis reflection driven by the
reflect flags: a Top-side collision with `vy < 0` yields `(vx, -vy)`, a
Top-side collision with `vy ≥ 0` leaves the velocity unchanged, and a
Left-side collision reflects x exactly when `vx > 0`; the game state is
untouched. -/
theorem wall_reflection_law (p : Vec2) (c : Collider) (v : Vec2) (gs : GameState)
    (hk : c.kind = ColliderKind.wall) (col : Collision)
    (hcol : collide p BALL_SIZE c.pos c.size = some col) :
    (respondCollider p c v gs).vel = reflectVel col v ∧
    (respondCollider p c v gs).gs = gs ∧
    (col = Collision.Top → v.y < 0 → (respondCollider p c v gs).vel = ⟨v.x, -v.y⟩) ∧
    (col = Collision.Top → 0 ≤ v.y → (respondCollider p c v gs).vel = v) ∧
    (col = Collision.Left → 0 < v.x → (respondCollider p c v gs).vel = ⟨-v.x, v.y⟩) ∧
    (col = Collision.Left → v.x ≤ 0 → (respondCollider p c v gs).vel = v) := by
  have hr := respond_wall p c v gs col hcol hk
  refine ⟨by rw [hr], by rw [hr], ?_, ?_, ?_, ?_⟩
  · intro hc hvy
    subst hc
    rw [hr]
    show reflectVel Collision.Top v = ⟨v.x, -v.y⟩
    unfold reflectVel reflectXFlag reflectYFlag
    simp [hvy]
  · intro hc hvy
    subst hc
    rw [hr]
    show reflectVel Collision.Top v = v
    unfold reflectVel reflectXFlag reflectYFlag
    simp [not_lt.mpr hvy]
  · intro hc hvx
    subst hc
    rw [hr]
    show reflectVel Collision.Left v = ⟨-v.x, v.y⟩
    unfold reflectVel reflectXFlag reflectYFlag
    simp [hvx]
  · intro hc hvx
    subst hc
    rw [hr]
    show reflectVel Collision.Left v = v
    unfold reflectVel reflectXFlag reflectYFlag
    simp [not_lt.mpr hvx]

theorem wall_reflection_law_witness :
    (respondCollider ⟨-490, 415⟩ leftWallC ⟨50, -100⟩ ⟨3, false, 1⟩).vel =
      reflectVel Collision.Top ⟨50, -100⟩ ∧
    (respondCollider ⟨-490, 415⟩ leftWallC ⟨50, -100⟩ ⟨3, false, 1⟩).gs = ⟨3, false, 1⟩ ∧
    (Collision.Top = Collision.Top → (-100 : ℚ) < 0 →
      (respondCollider ⟨-490, 415⟩ leftWallC ⟨50, -100⟩ ⟨3, false, 1⟩).vel =
        ⟨50, -(-100 : ℚ)⟩) ∧
    (Collision.Top = Collision.Top → (0 : ℚ) ≤ -100 →
      (respondCollider ⟨-490, 415⟩ leftWallC ⟨50, -100⟩ ⟨3, false, 1⟩).vel = ⟨50, -100⟩) ∧
    (Collision.Top = Collision.Left → (0 : ℚ) < 50 →
      (respondCollider ⟨-490, 415⟩ leftWallC ⟨50, -100⟩ ⟨3, false, 1⟩).vel =
        ⟨-(50 : ℚ), -100⟩) ∧
    (Collision.Top = Collision.Left → (50 : ℚ) ≤ 0 →
      (respondCollider ⟨-490, 415⟩ leftWallC ⟨50, -100⟩ ⟨3, false, 1⟩).vel = ⟨50, -100⟩) :=
  wall_reflection_law ⟨-490, 415⟩ leftWallC ⟨50, -100⟩ ⟨3, false, 1⟩ rfl Collision.Top
    (by with_unfolding_all decide)

/-- C7 counterexample: a Top-side collision with a brick at incoming
velocity (100, -200) produces velocity (100, 210) — the brick branch first
changes `vy` to -210 and reflection then negates it — not the claimed
`(vx, -vy) = (100, 200)`. -/
theorem reflection_law_brick_counterexample :
    collide ⟨0, 335⟩ BALL_SIZE (brickC ⟨0, 320⟩).pos (brickC ⟨0, 320⟩).size =
      some Collision.Top ∧
    ((-200 : ℚ) < 0) ∧
    (respondCollider ⟨0, 335⟩ (brickC ⟨0, 320⟩) ⟨100, -200⟩ ⟨0, false, 3⟩).vel =
      ⟨100, 210⟩ ∧
    ¬((respondCollider ⟨0, 335⟩ (brickC ⟨0, 320⟩) ⟨100, -200⟩ ⟨0, false, 3⟩).vel =
      ⟨100, 200⟩) := by
  with_unfolding_all decide

/-- C8: in every reachable state a waiting ball has velocity exactly (0,0),
and the invariant is preserved by any further tick — including ticks whose
collision pass hits the bottom wall together with another collider. -/
theorem waiting_velocity_invariant (w : World) (h : Reachable w) (i : Input) :
    (w.gs.ball_waiting = true → w.ballVel = ⟨0, 0⟩) ∧
    ((tick w i).gs.ball_waiting = true → (tick w i).ballVel = ⟨0, 0⟩) :=
  ⟨(reachable_inv w h).1, (reachable_inv (tick w i) (Reachable.step w i h)).1⟩

theorem waiting_velocity_invariant_witness :
    (init.gs.ball_waiting = true → init.ballVel = ⟨0, 0⟩) ∧
    ((tick init noInput).gs.ball_waiting = true → (tick init noInput).ballVel = ⟨0, 0⟩) :=
  waiting_velocity_invariant init Reachable.init noInput

/-- C9: whenever a cursor position is available in a tick, the mouse system
(running after the keyboard system in the modelled step order) overwrites
the paddle x, so the tick's final paddle x equals
`clamp(cursor_x - CANVAS_WIDTH/2, left_bound, right_bound)` regardless of
the held direction keys. -/
theorem mouse_overrides_keyboard (w : World) (i : Input) (cx : ℚ)
    (hc : i.cursor = some cx) :
    (preTick w i).paddleX =
      rclamp (cx - CANVAS_WIDTH / 2) paddleLeftBound paddleRightBound := by
  rw [preTick_paddleX]
  unfold paddlePhase move_paddle_by_mouse
  rw [hc]

theorem mouse_overrides_keyboard_witness :
    (preTick init bothInput).paddleX =
      rclamp ((100 : ℚ) - CANVAS_WIDTH / 2) paddleLeftBound paddleRightBound :=
  mouse_overrides_keyboard init bothInput 100 rfl

/-- C10: an Inside-classified overlap with a collider that is neither a
brick nor the bottom wall (the paddle or a plain wall) leaves the ball
velocity and the game state completely unchanged and despawns nothing. -/
theorem inside_collision_no_effect (p : Vec2) (c : Collider) (v : Vec2) (gs : GameState)
    (hk : c.kind = ColliderKind.paddle ∨ c.kind = ColliderKind.wall)
    (hcol : collide p BALL_SIZE c.pos c.size = some Collision.Inside) :
    respondCollider p c v gs = ⟨v, gs, false⟩ := by
  rcases hk with hk | hk
  · rw [respond_paddle _ _ _ _ _ hcol hk]
    have hfl : (reflectYFlag Collision.Inside v || reflectXFlag Collision.Inside v) =
        false := rfl
    rw [hfl, if_neg Bool.false_ne_true]
    rfl
  · rw [respond_wall _ _ _ _ _ hcol hk]
    rfl

theorem inside_collision_no_effect_witness :
    collide ⟨-500, 0⟩ BALL_SIZE leftWallC.pos leftWallC.size = some Collision.Inside ∧
    respondCollider ⟨-500, 0⟩ leftWallC ⟨120, -80⟩ ⟨9, false, 2⟩ =
      ⟨⟨120, -80⟩, ⟨9, false, 2⟩, false⟩ :=
  ⟨by with_unfolding_all decide,
   inside_collision_no_effect ⟨-500, 0⟩ leftWallC ⟨120, -80⟩ ⟨9, false, 2⟩ (Or.inr rfl)
     (by with_unfolding_all decide)⟩

end Breakout
